import Mathlib

/-!
Verification of the bridge correlation engine of the WhatsApp-Discord
bridge. The repository ships three variants of the same server:

* `server.js`, first half  — batch-mode reply collection ("V1" below);
* `server.js`, second half — immediate reply relay ("V2" below);
* `src/unnamed/part_000`   — batch-mode reply collection ("P0" below).

The definitions below are a shallow embedding of the handler functions
`handleWhatsAppMessage`, `handleDiscordMessage` and
`processCollectedResponses` of those variants.  JavaScript string
primitives (`trim`, `startsWith`, `substring(1)`, `toLowerCase`,
`endsWith`) are embedded as structurally recursive functions on the
character list of a `String`, timestamps (`Date.now()`) as natural
numbers, the `activeMessages` `Map` as an association list in insertion
order, the scratch-file directory as an association list from path to
file content, and every fallible external call (Discord channel fetch,
channel send, attachment download, WhatsApp send) as an oracle supplied
in an `Env` record, so that both the success paths and the `catch`
paths of the source are represented.
-/

namespace WDBridge

/-- JavaScript whitespace removal from the front of a character list. -/
def dropWhileWS : List Char → List Char
  | [] => []
  | c :: cs => if c.isWhitespace then dropWhileWS cs else c :: cs

/-- Embedding of JavaScript `String.prototype.trim`. -/
def jsTrim (s : String) : String :=
  ⟨(dropWhileWS (dropWhileWS s.data).reverse).reverse⟩

/-- Embedding of JavaScript `String.prototype.startsWith`. -/
def jsStartsWith (s pre : String) : Bool :=
  pre.data.isPrefixOf s.data

/-- Embedding of JavaScript `String.prototype.substring(1)`. -/
def jsDrop1 (s : String) : String := ⟨s.data.drop 1⟩

/-- Embedding of JavaScript `String.prototype.toLowerCase` (ASCII). -/
def jsToLower (s : String) : String := ⟨s.data.map Char.toLower⟩

/-- Embedding of JavaScript `String.prototype.endsWith`. -/
def jsEndsWith (s suf : String) : Bool :=
  suf.data.isSuffixOf s.data

/-- The test `attachment.name.toLowerCase().endsWith('.txt')` from the
source. -/
def isTxtName (name : String) : Bool :=
  jsEndsWith (jsToLower name) ".txt"

/-- The scratch-file directory: paths with their byte content. -/
abbrev FS := List (String × String)

/-- `fs.existsSync`. -/
def FS.hasFile (fs : FS) (p : String) : Bool := fs.any (fun q => q.1 = p)

/-- `fs.readFileSync(path, 'utf8')`. -/
def FS.readFile (fs : FS) (p : String) : String :=
  match fs.find? (fun q => q.1 = p) with
  | some q => q.2
  | none => ""

/-- `fs.writeFileSync`. -/
def FS.writeFile (fs : FS) (p c : String) : FS :=
  (p, c) :: fs.filter (fun q => q.1 ≠ p)

/-- `fs.unlinkSync`. -/
def FS.removeFile (fs : FS) (p : String) : FS :=
  fs.filter (fun q => q.1 ≠ p)

/-- The configuration surface consumed by the engine (`CONFIG`). -/
structure Config where
  discordChannelId : String
  messageTimeout : Nat
  triggerChar : String
deriving DecidableEq

/-- A saved reply attachment descriptor, as pushed onto
`response.attachments` (`{name, path, contentType}`). -/
structure SavedAttachment where
  name : String
  path : String
  contentType : String
deriving DecidableEq

/-- A collected reply entry, as pushed onto `bridgeData.responses`. -/
structure BridgeResponse where
  content : String
  author : String
  attachments : List SavedAttachment
  timestamp : Nat
deriving DecidableEq

/-- A bridge record of the batch variants (`activeMessages.set(bridgeId,
{whatsappChatId, whatsappChat, originalMessage, timestamp, responses})`).
The chat handle `whatsappChat` is represented by the identifier of the
conversation it sends to. -/
structure BridgeData where
  whatsappChatId : String
  whatsappChat : String
  timestamp : Nat
  responses : List BridgeResponse
deriving DecidableEq

/-- A bridge record of the immediate variant (V2), which stores the
group flag and label instead of a reply list. -/
structure BridgeDataV2 where
  whatsappChatId : String
  whatsappChat : String
  timestamp : Nat
  isGroup : Bool
  groupName : Option String
deriving DecidableEq

/-- The `activeMessages` map, in insertion order. -/
abbrev Store := List (String × BridgeData)

/-- The `activeMessages` map of the immediate variant. -/
abbrev StoreV2 := List (String × BridgeDataV2)

/-- `Map.delete(bridgeId)`. -/
def eraseKey (k : String) (store : Store) : Store :=
  store.filter (fun p => p.1 ≠ k)

/-- `Map.delete(bridgeId)` on the immediate variant's store. -/
def eraseKeyV2 (k : String) (store : StoreV2) : StoreV2 :=
  store.filter (fun p => p.1 ≠ k)

/-- A Discord attachment of an inbound Discord message. -/
structure DiscordAttachment where
  url : String
  name : String
  contentType : String
deriving DecidableEq

/-- An inbound Discord message (`messageCreate` payload fields used by
the handlers). -/
structure DiscordMessage where
  content : String
  authorUsername : String
  authorId : String
  authorIsBot : Bool
  channelId : String
  attachments : List DiscordAttachment
deriving DecidableEq

/-- The resolved WhatsApp conversation object (`message.getChat()`). -/
structure WAChat where
  idSerialized : String
  isGroup : Bool
  name : String
deriving DecidableEq

/-- The resolved WhatsApp contact object (`message.getContact()`);
`none` stands for a missing/falsy field. -/
structure WAContact where
  contactName : Option String
  pushname : Option String
deriving DecidableEq

/-- The result of `message.downloadMedia()`; `data` is the decoded
payload. -/
structure WAMedia where
  mediaData : String
  filename : Option String
deriving DecidableEq

/-- An inbound WhatsApp message event, together with the resolution
results the handler awaits (`getChat`, `getContact`, `downloadMedia`).
`media = none` models `downloadMedia()` resolving to a falsy value. -/
structure WAMessage where
  body : String
  msgFrom : String
  msgAuthor : Option String
  hasMedia : Bool
  media : Option WAMedia
  chat : WAChat
  contact : WAContact
deriving DecidableEq

/-- A message delivered to the Discord bridge channel
(`discordChannel.send`). -/
inductive DSend
  | text (content : String)
  | withFile (content : String) (path : String)
deriving DecidableEq

/-- A message delivered to a WhatsApp conversation
(`chat.sendMessage`). -/
inductive WASend
  | text (chat : String) (content : String)
  | media (chat : String) (path : String) (caption : Option String)
deriving DecidableEq

/-- Whether a WhatsApp-bound send is a file attachment rather than a
chat text message. -/
def WASend.isMediaSend : WASend → Bool
  | .text _ _ => false
  | .media _ _ _ => true

/-- Outcome of `discordClient.channels.fetch(CONFIG.discordChannelId)`:
the awaited promise rejects, resolves to a falsy value, or yields the
channel. -/
inductive ChannelFetch
  | fetchError
  | notFound
  | found
deriving DecidableEq

/-- The external world as the handlers observe it: the current clock,
the generated bridge id, the Discord channel fetch outcome, and success
oracles for each fallible send/download.  A `false` oracle value models
the corresponding `await` throwing. -/
structure Env where
  now : Nat
  bridgeId : String
  selfId : String
  channelFetch : ChannelFetch
  discordSendOk : DSend → Bool
  fetchOk : String → Bool
  fetchBody : String → String
  waTextOk : String → String → Bool
  waMediaOk : String → String → Bool

/-- The attachment download loop of `handleDiscordMessage` in
`part_000` (and the first `server.js` variant): each attachment is
fetched; on success its bytes are written to
`` `${bridgeId}_${attachment.name}` `` and a descriptor is pushed; a
download failure is caught, logged, and the loop continues. Returns the
pushed descriptors and the updated scratch directory. -/
def downloadAttachments (env : Env) (bridgeId : String) (fs : FS) :
    List DiscordAttachment → List SavedAttachment × FS
  | [] => ([], fs)
  | att :: rest =>
    if env.fetchOk att.url then
      let path := bridgeId ++ "_" ++ att.name
      let r := downloadAttachments env bridgeId
        (FS.writeFile fs path (env.fetchBody att.url)) rest
      ({ name := att.name, path := path, contentType := att.contentType } :: r.1, r.2)
    else
      downloadAttachments env bridgeId fs rest

/-- The reply entry built by `handleDiscordMessage` for the matched
bridge record. -/
def mkResponse (env : Env) (bridgeId : String) (fs : FS) (msg : DiscordMessage) :
    BridgeResponse :=
  { content := msg.content
    author := msg.authorUsername
    attachments := (downloadAttachments env bridgeId fs msg.attachments).1
    timestamp := env.now }

/-- The record-matching loop of `handleDiscordMessage` in `part_000`:
iterate `activeMessages` in insertion order; at the first record with
`Date.now() - timestamp <= CONFIG.messageTimeout`, download the
attachments, push the reply entry onto its `responses`, and `break`. -/
def attachToFirstActive (env : Env) (cfg : Config) (msg : DiscordMessage) (fs : FS) :
    Store → Store × FS
  | [] => ([], fs)
  | (bridgeId, bd) :: rest =>
    if env.now - bd.timestamp ≤ cfg.messageTimeout then
      ((bridgeId, { bd with responses := bd.responses ++ [mkResponse env bridgeId fs msg] })
         :: rest,
       (downloadAttachments env bridgeId fs msg.attachments).2)
    else
      ((bridgeId, bd) :: (attachToFirstActive env cfg msg fs rest).1,
       (attachToFirstActive env cfg msg fs rest).2)

/-- `handleDiscordMessage` of `part_000`: events outside the bridge
channel are ignored; otherwise the reply is collected by the first
active record. -/
def handleDiscordMessageP0 (env : Env) (cfg : Config) (msg : DiscordMessage)
    (store : Store) (fs : FS) : Store × FS :=
  if msg.channelId ≠ cfg.discordChannelId then (store, fs)
  else attachToFirstActive env cfg msg fs store

/-- The per-item failure notice sent from the batch flush
(`` `❌ Fehler beim Senden der Datei: ${attachment.name}` ``). -/
def failNotice (name : String) : String :=
  "❌ Fehler beim Senden der Datei: " ++ name

/-- One iteration of the attachment loop of
`processCollectedResponses` in `part_000`: if the scratch file still
exists, a `.txt`-named attachment has its text content read and sent as
a chat message, any other file is sent as media; after a successful
send the scratch file is unlinked; a send failure is caught and the
failure notice is sent instead, leaving the scratch file in place. -/
def flushAttachmentP0 (env : Env) (chatRef : String) (fs : FS)
    (att : SavedAttachment) : List WASend × FS :=
  if FS.hasFile fs att.path then
    if isTxtName att.name then
      let txt := FS.readFile fs att.path
      if env.waTextOk chatRef txt then
        ([WASend.text chatRef txt], FS.removeFile fs att.path)
      else
        ([WASend.text chatRef (failNotice att.name)], fs)
    else
      if env.waMediaOk chatRef att.path then
        ([WASend.media chatRef att.path none], FS.removeFile fs att.path)
      else
        ([WASend.text chatRef (failNotice att.name)], fs)
  else ([], fs)

/-- The attachment loop of `processCollectedResponses` in `part_000`. -/
def flushAttachmentsP0 (env : Env) (chatRef : String) (fs : FS) :
    List SavedAttachment → List WASend × FS
  | [] => ([], fs)
  | a :: rest =>
    let r1 := flushAttachmentP0 env chatRef fs a
    let r2 := flushAttachmentsP0 env chatRef r1.2 rest
    (r1.1 ++ r2.1, r2.2)

/-- The entry loop of `processCollectedResponses` in `part_000`: for
each collected reply in order, send its text when non-blank (a failure
of this send is not caught per item and aborts the remaining entries,
reaching the surrounding `catch`), then process its attachments.  The
final component is `false` when that abort happened. -/
def flushResponsesP0 (env : Env) (chatRef : String) (fs : FS) :
    List BridgeResponse → List WASend × FS × Bool
  | [] => ([], fs, true)
  | r :: rest =>
    if jsTrim r.content ≠ "" then
      if env.waTextOk chatRef r.content then
        let a := flushAttachmentsP0 env chatRef fs r.attachments
        let s := flushResponsesP0 env chatRef a.2 rest
        (WASend.text chatRef r.content :: a.1 ++ s.1, s.2.1, s.2.2)
      else ([], fs, false)
    else
      let a := flushAttachmentsP0 env chatRef fs r.attachments
      let s := flushResponsesP0 env chatRef a.2 rest
      (a.1 ++ s.1, s.2.1, s.2.2)

/-- The "no response" notice of `part_000`. -/
def noResponseNoticeP0 : String := "⏰ *Keine Antworten in 30 Sekunden erhalten.*"

/-- `processCollectedResponses` of `part_000`: look the bridge id up
(absent: return); zero collected replies: send the "no response"
notice; otherwise relay every collected entry in order; in every case
the `finally` block deletes the record. -/
def processCollectedResponsesP0 (env : Env) (fs : FS) (store : Store)
    (bridgeId : String) : List WASend × FS × Store :=
  match store.find? (fun p => p.1 = bridgeId) with
  | none => ([], fs, store)
  | some pr =>
    let bd := pr.2
    if bd.responses.length = 0 then
      ((if env.waTextOk bd.whatsappChat noResponseNoticeP0 then
          [WASend.text bd.whatsappChat noResponseNoticeP0] else []),
       fs, eraseKey bridgeId store)
    else
      let r := flushResponsesP0 env bd.whatsappChat fs bd.responses
      (r.1, r.2.1, eraseKey bridgeId store)

/-- The "no response" notice of the first `server.js` variant. -/
def noResponseNoticeV1 : String := "⏰ *Keine Antworten in 2 Minuten erhalten.*"

/-- The final summary sent by the first `server.js` variant
(`` `✅ *${n} Antwort(en) von Discord weitergeleitet.*` ``). -/
def summaryV1 (n : Nat) : String :=
  "✅ *" ++ toString n ++ " Antwort(en) von Discord weitergeleitet.*"

/-- The decorated reply text of the first `server.js` variant
(`` `**${response.author}**: ${response.content}` ``). -/
def v1MessageText (r : BridgeResponse) : String :=
  "**" ++ r.author ++ "**: " ++ r.content

/-- The attachment caption of the first `server.js` variant. -/
def captionV1 (name author : String) : String :=
  "📎 " ++ name ++ " (von " ++ author ++ ")"

/-- One iteration of the attachment loop of `processCollectedResponses`
in the first `server.js` variant: every existing scratch file is sent
as media with a caption — there is no `.txt` special case here; a send
failure is caught and the failure notice is sent, leaving the file. -/
def flushAttachmentV1 (env : Env) (chatRef author : String) (fs : FS)
    (att : SavedAttachment) : List WASend × FS :=
  if FS.hasFile fs att.path then
    if env.waMediaOk chatRef att.path then
      ([WASend.media chatRef att.path (some (captionV1 att.name author))],
       FS.removeFile fs att.path)
    else
      ([WASend.text chatRef (failNotice att.name)], fs)
  else ([], fs)

/-- The attachment loop of `processCollectedResponses` in the first
`server.js` variant. -/
def flushAttachmentsV1 (env : Env) (chatRef author : String) (fs : FS) :
    List SavedAttachment → List WASend × FS
  | [] => ([], fs)
  | a :: rest =>
    let r1 := flushAttachmentV1 env chatRef author fs a
    let r2 := flushAttachmentsV1 env chatRef author r1.2 rest
    (r1.1 ++ r2.1, r2.2)

/-- The entry loop of `processCollectedResponses` in the first
`server.js` variant. -/
def flushResponsesV1 (env : Env) (chatRef : String) (fs : FS) :
    List BridgeResponse → List WASend × FS × Bool
  | [] => ([], fs, true)
  | r :: rest =>
    if jsTrim r.content ≠ "" then
      if env.waTextOk chatRef (v1MessageText r) then
        let a := flushAttachmentsV1 env chatRef r.author fs r.attachments
        let s := flushResponsesV1 env chatRef a.2 rest
        (WASend.text chatRef (v1MessageText r) :: a.1 ++ s.1, s.2.1, s.2.2)
      else ([], fs, false)
    else
      let a := flushAttachmentsV1 env chatRef r.author fs r.attachments
      let s := flushResponsesV1 env chatRef a.2 rest
      (a.1 ++ s.1, s.2.1, s.2.2)

/-- `processCollectedResponses` of the first `server.js` variant: like
`part_000`'s, plus a trailing summary message when the entry loop
completed without an escaped exception. -/
def processCollectedResponsesV1 (env : Env) (fs : FS) (store : Store)
    (bridgeId : String) : List WASend × FS × Store :=
  match store.find? (fun p => p.1 = bridgeId) with
  | none => ([], fs, store)
  | some pr =>
    let bd := pr.2
    if bd.responses.length = 0 then
      ((if env.waTextOk bd.whatsappChat noResponseNoticeV1 then
          [WASend.text bd.whatsappChat noResponseNoticeV1] else []),
       fs, eraseKey bridgeId store)
    else
      let r := flushResponsesV1 env bd.whatsappChat fs bd.responses
      let sends :=
        if r.2.2 then
          r.1 ++ (if env.waTextOk bd.whatsappChat (summaryV1 bd.responses.length) then
                    [WASend.text bd.whatsappChat (summaryV1 bd.responses.length)] else [])
        else r.1
      (sends, r.2.1, eraseKey bridgeId store)

/-- The JavaScript truthiness chain `a || b || 'Unknown'` over the two
contact name fields. -/
def orUnknown (n p : Option String) : String := n.getD (p.getD "Unknown")

/-- The Discord-bound text of the first `server.js` variant
(`` `**From WhatsApp** (${name}):\n${content}\n\n*Bridge ID: ${bridgeId}*` ``). -/
def v1DiscordText (m : WAMessage) (content bridgeId : String) : String :=
  "**From WhatsApp** (" ++ orUnknown m.contact.contactName m.contact.pushname
    ++ "):\n" ++ content ++ "\n\n*Bridge ID: " ++ bridgeId ++ "*"

/-- The outcome of one `handleWhatsAppMessage` invocation: the store,
the scratch directory, the messages delivered to Discord, the bridge id
whose expiry callback was scheduled via `setTimeout`, and the scratch
paths whose deferred deletion was scheduled. -/
structure InboundResult where
  store : Store
  fs : FS
  sends : List DSend
  scheduledFlush : Option String
  pendingDeletes : List String
deriving DecidableEq

/-- `handleWhatsAppMessage` of the first `server.js` variant.  The
admission filters run first (untrimmed `startsWith`, broadcast origin,
blank `substring(1).trim()`); an admitted event creates the record
keyed by the fresh bridge id with `whatsappChatId = message.from`, then
the `try` block fetches the channel (a falsy result returns early with
the record still stored and no expiry scheduled), sends
text-plus-attachment or text, schedules the scratch-file linger delete
and the flush; any thrown error reaches the `catch`, which deletes the
record. -/
def handleWhatsAppMessageV1 (cfg : Config) (env : Env) (m : WAMessage)
    (store : Store) (fs : FS) : InboundResult :=
  if ¬ jsStartsWith m.body cfg.triggerChar then ⟨store, fs, [], none, []⟩
  else if m.msgFrom = "status@broadcast" then ⟨store, fs, [], none, []⟩
  else
    let content := jsTrim (jsDrop1 m.body)
    if content = "" then ⟨store, fs, [], none, []⟩
    else
      let bridgeId := env.bridgeId
      let rec0 : BridgeData :=
        { whatsappChatId := m.msgFrom
          whatsappChat := m.chat.idSerialized
          timestamp := env.now
          responses := [] }
      let store1 := store ++ [(bridgeId, rec0)]
      match env.channelFetch with
      | .fetchError => ⟨eraseKey bridgeId store1, fs, [], none, []⟩
      | .notFound => ⟨store1, fs, [], none, []⟩
      | .found =>
        let discordMessage := v1DiscordText m content bridgeId
        if m.hasMedia then
          match m.media with
          | some media =>
            let filePath := bridgeId ++ "_" ++ media.filename.getD "media"
            let fs1 := FS.writeFile fs filePath media.mediaData
            if env.discordSendOk (DSend.withFile discordMessage filePath) then
              ⟨store1, fs1, [DSend.withFile discordMessage filePath],
               some bridgeId, [filePath]⟩
            else
              ⟨eraseKey bridgeId store1, fs1, [], none, []⟩
          | none => ⟨store1, fs, [], some bridgeId, []⟩
        else
          if env.discordSendOk (DSend.text discordMessage) then
            ⟨store1, fs, [DSend.text discordMessage], some bridgeId, []⟩
          else
            ⟨eraseKey bridgeId store1, fs, [], none, []⟩

/-- The admission filter exactly as the code of the first `server.js`
variant applies it: the raw (untrimmed) body starts with the trigger
character, the origin is not the status broadcast, and
`substring(1).trim()` is non-blank. -/
def codeAdmittedV1 (cfg : Config) (m : WAMessage) : Bool :=
  jsStartsWith m.body cfg.triggerChar
    && m.msgFrom != "status@broadcast"
    && jsTrim (jsDrop1 m.body) != ""

/-- Modelled from the spec: the admission filter as §4.2 words it — the
body text *after trimming* starts with the configured trigger
character, the origin is not the broadcast pseudo-conversation, and the
trimmed body after prefix stripping is non-empty.  Kept for comparison
with `codeAdmittedV1`. -/
def specAdmittedV1 (cfg : Config) (m : WAMessage) : Bool :=
  jsStartsWith (jsTrim m.body) cfg.triggerChar
    && m.msgFrom != "status@broadcast"
    && jsTrim (jsDrop1 (jsTrim m.body)) != ""

/-- The sender label of the second `server.js` variant
(`contact.pushname || contact.name || message.author || 'Unknown'` in a
group, `contact.pushname || contact.name || 'Unknown'` otherwise). -/
def v2SenderName (m : WAMessage) : String :=
  if m.chat.isGroup then
    m.contact.pushname.getD (m.contact.contactName.getD (m.msgAuthor.getD "Unknown"))
  else
    m.contact.pushname.getD (m.contact.contactName.getD "Unknown")

/-- The Discord-bound text of the second `server.js` variant. -/
def v2DiscordText (m : WAMessage) (content : String) : String :=
  if m.chat.isGroup then
    "**[" ++ m.chat.name ++ "]** " ++ v2SenderName m ++ ": " ++ content
  else
    "**[Privat]** " ++ v2SenderName m ++ ": " ++ content

/-- Outcome of the second `server.js` variant's
`handleWhatsAppMessage`. -/
structure InboundResultV2 where
  store : StoreV2
  fs : FS
  sends : List DSend
  scheduledCleanup : Option String
  pendingDeletes : List String
deriving DecidableEq

/-- `handleWhatsAppMessage` of the second `server.js` variant: the body
is kept whole (`message.body.trim()`), and the record stores
`whatsappChatId = chat.id._serialized` (the resolved conversation
identifier) together with the group flag and name.  Control flow is as
in the first variant. -/
def handleWhatsAppMessageV2 (cfg : Config) (env : Env) (m : WAMessage)
    (store : StoreV2) (fs : FS) : InboundResultV2 :=
  if ¬ jsStartsWith m.body cfg.triggerChar then ⟨store, fs, [], none, []⟩
  else if m.msgFrom = "status@broadcast" then ⟨store, fs, [], none, []⟩
  else
    let content := jsTrim m.body
    if content = "" then ⟨store, fs, [], none, []⟩
    else
      let bridgeId := env.bridgeId
      let rec0 : BridgeDataV2 :=
        { whatsappChatId := m.chat.idSerialized
          whatsappChat := m.chat.idSerialized
          timestamp := env.now
          isGroup := m.chat.isGroup
          groupName := if m.chat.isGroup then some m.chat.name else none }
      let store1 := store ++ [(bridgeId, rec0)]
      match env.channelFetch with
      | .fetchError => ⟨eraseKeyV2 bridgeId store1, fs, [], none, []⟩
      | .notFound => ⟨store1, fs, [], none, []⟩
      | .found =>
        let discordMessage := v2DiscordText m content
        if m.hasMedia then
          match m.media with
          | some media =>
            let filePath := toString env.now ++ "_" ++ media.filename.getD "media"
            let fs1 := FS.writeFile fs filePath media.mediaData
            if env.discordSendOk (DSend.withFile discordMessage filePath) then
              ⟨store1, fs1, [DSend.withFile discordMessage filePath],
               some bridgeId, [filePath]⟩
            else
              ⟨eraseKeyV2 bridgeId store1, fs1, [], none, []⟩
          | none => ⟨store1, fs, [], some bridgeId, []⟩
        else
          if env.discordSendOk (DSend.text discordMessage) then
            ⟨store1, fs, [DSend.text discordMessage], some bridgeId, []⟩
          else
            ⟨eraseKeyV2 bridgeId store1, fs, [], none, []⟩

/-- The admission filter of the second `server.js` variant (the kept
body must be non-blank after trimming). -/
def codeAdmittedV2 (cfg : Config) (m : WAMessage) : Bool :=
  jsStartsWith m.body cfg.triggerChar
    && m.msgFrom != "status@broadcast"
    && jsTrim m.body != ""

/-- The attachment loop of the second `server.js` variant's
`handleDiscordMessage`: each attachment is downloaded to a scratch
file; a `.txt`-named attachment has its text content read and sent as a
chat message, others are sent as media with a fixed caption; after a
successful send the scratch file is unlinked.  Download and send
failures are caught per item and only logged — no notice is sent and
the scratch file of a failed send is left behind. -/
def immediateAttachments (env : Env) (chatRef bridgeId : String) (fs : FS) :
    List DiscordAttachment → List WASend × FS
  | [] => ([], fs)
  | att :: rest =>
    let step : List WASend × FS :=
      if env.fetchOk att.url then
        let path := bridgeId ++ "_" ++ att.name
        let fs1 := FS.writeFile fs path (env.fetchBody att.url)
        if isTxtName att.name then
          let txt := FS.readFile fs1 path
          if env.waTextOk chatRef ("🤖 " ++ txt) then
            ([WASend.text chatRef ("🤖 " ++ txt)], FS.removeFile fs1 path)
          else ([], fs1)
        else
          if env.waMediaOk chatRef path then
            ([WASend.media chatRef path (some "🤖 Datei von Discord")],
             FS.removeFile fs1 path)
          else ([], fs1)
      else ([], fs)
    let r := immediateAttachments env chatRef bridgeId step.2 rest
    (step.1 ++ r.1, r.2)

/-- The record-matching loop of the second `server.js` variant's
`handleDiscordMessage`: the first record within its window receives the
reply text (decorated with `🤖 `) and the attachments immediately, then
the loop `break`s; a thrown text-send failure is caught for the whole
record (skipping its attachments) but the `break` still happens.  The
store itself is not mutated. -/
def relayToFirstActive (env : Env) (cfg : Config) (msg : DiscordMessage) (fs : FS) :
    StoreV2 → List WASend × FS
  | [] => ([], fs)
  | (bridgeId, bd) :: rest =>
    if env.now - bd.timestamp ≤ cfg.messageTimeout then
      if jsTrim msg.content ≠ "" then
        if env.waTextOk bd.whatsappChat ("🤖 " ++ msg.content) then
          let r := immediateAttachments env bd.whatsappChat bridgeId fs msg.attachments
          (WASend.text bd.whatsappChat ("🤖 " ++ msg.content) :: r.1, r.2)
        else ([], fs)
      else
        immediateAttachments env bd.whatsappChat bridgeId fs msg.attachments
    else
      relayToFirstActive env cfg msg fs rest

/-- `handleDiscordMessage` of the second `server.js` variant: events
outside the bridge channel and the bot's own messages are ignored;
otherwise the reply is relayed immediately to the first active
record. -/
def handleDiscordMessageV2 (env : Env) (cfg : Config) (msg : DiscordMessage)
    (store : StoreV2) (fs : FS) : List WASend × FS :=
  if msg.channelId ≠ cfg.discordChannelId then ([], fs)
  else if msg.authorId = env.selfId then ([], fs)
  else relayToFirstActive env cfg msg fs store

theorem hasFile_removeFile (fs : FS) (p : String) :
    FS.hasFile (FS.removeFile fs p) p = false := by
  rw [Bool.eq_false_iff]
  intro h
  simp only [FS.hasFile, FS.removeFile, List.any_eq_true, List.mem_filter,
    decide_eq_true_eq] at h
  obtain ⟨x, ⟨_, hne⟩, he⟩ := h
  exact hne he

theorem hasFile_writeFile (fs : FS) (p c : String) :
    FS.hasFile (FS.writeFile fs p c) p = true := by
  simp [FS.hasFile, FS.writeFile]

theorem find?_eraseKey (k : String) (store : Store) :
    (eraseKey k store).find? (fun p => p.1 = k) = none := by
  rw [List.find?_eq_none]
  intro x hx
  simp only [eraseKey, List.mem_filter, decide_eq_true_eq] at hx
  simp [hx.2]

theorem eraseKey_append_fresh (k : String) (r : BridgeData) (store : Store)
    (h : k ∉ store.map Prod.fst) :
    eraseKey k (store ++ [(k, r)]) = store := by
  unfold eraseKey
  rw [List.filter_append]
  have h1 : store.filter (fun p => decide (p.1 ≠ k)) = store := by
    rw [List.filter_eq_self]
    intro a ha
    simp only [decide_eq_true_eq]
    intro hk
    exact h (by simpa [hk] using List.mem_map_of_mem Prod.fst ha)
  have h2 : List.filter (fun p => decide (p.1 ≠ k)) [(k, r)] = [] := by simp
  rw [h1, h2, List.append_nil]

/-- The entry loop of the `part_000` flush on attachment-free entries:
each entry with non-blank text emits exactly one text message, in
order, while an entry with blank text emits nothing at all. -/
theorem flushResponsesP0_noAttach (env : Env) (chatRef : String)
    (hok : ∀ c s, env.waTextOk c s = true) :
    ∀ (fs : FS) (rs : List BridgeResponse),
    (∀ r ∈ rs, r.attachments = []) →
    flushResponsesP0 env chatRef fs rs
      = (rs.flatMap (fun r => if jsTrim r.content ≠ "" then
            [WASend.text chatRef r.content] else []), fs, true)
  | _, [], _ => rfl
  | fs, r :: rest, hrs => by
    have hr := hrs r (List.mem_cons_self r rest)
    have hrest : ∀ x ∈ rest, x.attachments = [] :=
      fun x hx => hrs x (List.mem_cons_of_mem r hx)
    by_cases hb : jsTrim r.content ≠ ""
    · simp only [flushResponsesP0, if_pos hb, hok, if_pos, hr,
        flushAttachmentsP0, flushResponsesP0_noAttach env chatRef hok fs rest hrest,
        List.flatMap_cons]
    · simp only [flushResponsesP0, if_neg hb, hr,
        flushAttachmentsP0, flushResponsesP0_noAttach env chatRef hok fs rest hrest,
        List.flatMap_cons]

/-- A default configuration: trigger `.`, two-minute window. -/
def cfg0 : Config :=
  { discordChannelId := "chan", messageTimeout := 120000, triggerChar := "." }

/-- An environment in which every external call succeeds. -/
def envAllOk : Env :=
  { now := 1000, bridgeId := "B1", selfId := "self",
    channelFetch := ChannelFetch.found,
    discordSendOk := fun _ => true, fetchOk := fun _ => true,
    fetchBody := fun _ => "data",
    waTextOk := fun _ _ => true, waMediaOk := fun _ _ => true }

/-- The `part_000` flush is a no-op when the bridge id is absent. -/
theorem flushP0_not_found (env : Env) (fs : FS) (store : Store) (bridgeId : String)
    (h : store.find? (fun p => p.1 = bridgeId) = none) :
    processCollectedResponsesP0 env fs store bridgeId = ([], fs, store) := by
  simp [processCollectedResponsesP0, h]

/-- Claim C10: the batch-mode flush is at-most-once per bridge id: it
deletes the record unconditionally — under every environment,
including ones where sends fail — and a second invocation with the same
bridge id finds no record, sends nothing and leaves both the store and
the scratch directory unchanged. -/
theorem batch_flush_at_most_once (env : Env) (fs : FS) (store : Store)
    (bridgeId : String) :
    ((processCollectedResponsesP0 env fs store bridgeId).2.2).find?
        (fun p => p.1 = bridgeId) = none
    ∧ processCollectedResponsesP0 env
        ((processCollectedResponsesP0 env fs store bridgeId).2.1)
        ((processCollectedResponsesP0 env fs store bridgeId).2.2) bridgeId
      = ([], (processCollectedResponsesP0 env fs store bridgeId).2.1,
         (processCollectedResponsesP0 env fs store bridgeId).2.2) := by
  have key : ((processCollectedResponsesP0 env fs store bridgeId).2.2).find?
      (fun p => p.1 = bridgeId) = none := by
    rcases h : store.find? (fun p => p.1 = bridgeId) with _ | pr
    · have hs : (processCollectedResponsesP0 env fs store bridgeId).2.2 = store := by
        simp [processCollectedResponsesP0, h]
      rw [hs, h]
    · have hs : (processCollectedResponsesP0 env fs store bridgeId).2.2
          = eraseKey bridgeId store := by
        simp only [processCollectedResponsesP0, h]
        by_cases hl : pr.2.responses.length = 0 <;> simp [hl]
      rw [hs]
      exact find?_eraseKey bridgeId store
  exact ⟨key, flushP0_not_found env _ _ bridgeId key⟩

/-- Claim C3 (amended): in batch mode, a window expiring with zero
collected replies sends exactly one "no response" notice; with `N`
collected (attachment-free) replies the flush walks the entries in
receipt order, relaying each entry with non-blank text as one message,
none duplicated and order preserved — but an entry whose text is blank
produces no send at all and is silently dropped, with neither a relay
nor a "no response" notice; in both cases the record is deleted from
the store afterwards. -/
theorem batch_flush_order_and_drop (env : Env) (fs : FS) (store : Store)
    (bridgeId : String) (bd : BridgeData)
    (hfind : store.find? (fun p => p.1 = bridgeId) = some (bridgeId, bd))
    (hok : ∀ c s, env.waTextOk c s = true)
    (hrs : ∀ r ∈ bd.responses, r.attachments = []) :
    (processCollectedResponsesP0 env fs store bridgeId).1
      = (if bd.responses.length = 0 then
           [WASend.text bd.whatsappChat noResponseNoticeP0]
         else bd.responses.flatMap (fun r => if jsTrim r.content ≠ "" then
             [WASend.text bd.whatsappChat r.content] else []))
    ∧ ((processCollectedResponsesP0 env fs store bridgeId).2.2).find?
        (fun p => p.1 = bridgeId) = none := by
  constructor
  · by_cases hl : bd.responses.length = 0
    · simp [processCollectedResponsesP0, hfind, hl, hok]
    · simp [processCollectedResponsesP0, hfind, hl,
        flushResponsesP0_noAttach env bd.whatsappChat hok fs bd.responses hrs]
  · rcases h : store.find? (fun p => p.1 = bridgeId) with _ | pr
    · rw [h] at hfind; exact absurd hfind (by simp)
    · have hs : (processCollectedResponsesP0 env fs store bridgeId).2.2
          = eraseKey bridgeId store := by
        simp only [processCollectedResponsesP0, h]
        by_cases hl : pr.2.responses.length = 0 <;> simp [hl]
      rw [hs]
      exact find?_eraseKey bridgeId store

/-- A record holding one collected reply whose text is blank and which
carries no attachments — e.g. a collected sticker/embed-only message,
or one whose only attachment download failed. -/
def bdBlank : BridgeData :=
  { whatsappChatId := "w@c.us", whatsappChat := "w@c.us", timestamp := 0,
    responses :=
      [ { content := "", author := "bot", attachments := [], timestamp := 3 } ] }

/-- Counterexample to claim C3 as stated: a record with exactly one
collected reply is flushed, yet zero entries are relayed — the blank
attachment-free entry is dropped without any send, and because the
reply list is non-empty the "no response" notice is suppressed too; the
record is still deleted. -/
theorem batch_flush_blank_entry_dropped_cx :
    bdBlank.responses.length = 1
    ∧ (processCollectedResponsesP0 envAllOk [] [("B3x", bdBlank)] "B3x").1 = []
    ∧ (processCollectedResponsesP0 envAllOk [] [("B3x", bdBlank)] "B3x").2.2 = [] := by
  decide

/-- A record with three collected replies, the middle one blank, used
as a concrete instance. -/
def bdMix : BridgeData :=
  { whatsappChatId := "w@c.us", whatsappChat := "w@c.us", timestamp := 0,
    responses :=
      [ { content := "erste", author := "al", attachments := [], timestamp := 5 },
        { content := " ", author := "bo", attachments := [], timestamp := 7 },
        { content := "zweite", author := "ca", attachments := [], timestamp := 9 } ] }

/-- Witness for claim C3's amended theorem, at a concrete store holding
one record with three collected replies of which the blank middle one
is dropped. -/
theorem batch_flush_order_and_drop_witness :
    (processCollectedResponsesP0 envAllOk [] [("B3", bdMix)] "B3").1
      = (if bdMix.responses.length = 0 then
           [WASend.text bdMix.whatsappChat noResponseNoticeP0]
         else bdMix.responses.flatMap (fun r => if jsTrim r.content ≠ "" then
             [WASend.text bdMix.whatsappChat r.content] else []))
    ∧ ((processCollectedResponsesP0 envAllOk [] [("B3", bdMix)] "B3").2.2).find?
        (fun p => p.1 = "B3") = none :=
  batch_flush_order_and_drop envAllOk [] [("B3", bdMix)] "B3" bdMix (by decide)
    (fun _ _ => rfl) (by decide)

/-- The matching loop returns every record whose window has lapsed
unchanged, and preserves keys and insertion order. -/
theorem attachToFirstActive_forall₂ (env : Env) (cfg : Config) (msg : DiscordMessage)
    (fs : FS) : ∀ store : Store,
    List.Forall₂ (fun p q : String × BridgeData =>
        p.1 = q.1 ∧ (¬ env.now - p.2.timestamp ≤ cfg.messageTimeout → q = p))
      store (attachToFirstActive env cfg msg fs store).1
  | [] => by simp [attachToFirstActive]
  | (id, bd) :: rest => by
    by_cases h : env.now - bd.timestamp ≤ cfg.messageTimeout
    · simp only [attachToFirstActive, if_pos h]
      refine List.Forall₂.cons ⟨rfl, fun hn => absurd h hn⟩ ?_
      exact List.forall₂_same.mpr (fun x _ => ⟨rfl, fun _ => rfl⟩)
    · simp only [attachToFirstActive, if_neg h]
      exact List.Forall₂.cons ⟨rfl, fun _ => rfl⟩
        (attachToFirstActive_forall₂ env cfg msg fs rest)

/-- Claim C1 (amended): for a reply event in the bridge channel, every
record whose window test `now - createdAt <= activeWindow` fails at
receipt time is returned by the handler exactly as it was — the reply
is never attributed to it even though the record is still physically
present — and keys and order are preserved; contrapositively, a record
the handler changes must have passed the window test. -/
theorem discordReply_window_only_admission (env : Env) (cfg : Config)
    (msg : DiscordMessage) (store : Store) (fs : FS)
    (hch : msg.channelId = cfg.discordChannelId) :
    List.Forall₂ (fun p q : String × BridgeData =>
        p.1 = q.1 ∧ (¬ env.now - p.2.timestamp ≤ cfg.messageTimeout → q = p))
      store (handleDiscordMessageP0 env cfg msg store fs).1 := by
  unfold handleDiscordMessageP0
  rw [if_neg (fun hne => hne hch)]
  exact attachToFirstActive_forall₂ env cfg msg fs store

/-- The matching loop skips every leading expired record and appends
the reply entry to the first record inside its window, leaving all
later records — active or not — untouched. -/
theorem attachToFirstActive_first (env : Env) (cfg : Config) (msg : DiscordMessage)
    (fs : FS) (id : String) (bd : BridgeData) (post : Store) :
    ∀ pre : Store, (∀ p ∈ pre, ¬ env.now - p.2.timestamp ≤ cfg.messageTimeout) →
    (env.now - bd.timestamp ≤ cfg.messageTimeout) →
    attachToFirstActive env cfg msg fs (pre ++ (id, bd) :: post) =
      (pre ++ (id, { bd with responses := bd.responses ++ [mkResponse env id fs msg] })
         :: post,
       (downloadAttachments env id fs msg.attachments).2)
  | [], _, hbd => by
    simp only [List.nil_append, attachToFirstActive, if_pos hbd]
  | (k, b) :: pre, hpre, hbd => by
    have hb : ¬ env.now - b.timestamp ≤ cfg.messageTimeout :=
      hpre (k, b) (List.mem_cons_self _ _)
    have ih := attachToFirstActive_first env cfg msg fs id bd post pre
      (fun p hp => hpre p (List.mem_cons_of_mem _ hp)) hbd
    simp only [List.cons_append, attachToFirstActive, if_neg hb, List.append_eq, ih]

/-- Claim C4 (amended): a reply event in the bridge channel is
collected by exactly the first record still inside its window in
insertion order — first-match-wins — and by no other record: all
records after the first active one, whether active or expired, are
returned unchanged, refuting the fan-out policy. -/
theorem discordReply_first_match (env : Env) (cfg : Config) (msg : DiscordMessage)
    (fs : FS) (pre post : Store) (id : String) (bd : BridgeData)
    (hch : msg.channelId = cfg.discordChannelId)
    (hpre : ∀ p ∈ pre, ¬ env.now - p.2.timestamp ≤ cfg.messageTimeout)
    (hbd : env.now - bd.timestamp ≤ cfg.messageTimeout) :
    handleDiscordMessageP0 env cfg msg (pre ++ (id, bd) :: post) fs =
      (pre ++ (id, { bd with responses := bd.responses ++ [mkResponse env id fs msg] })
         :: post,
       (downloadAttachments env id fs msg.attachments).2) := by
  unfold handleDiscordMessageP0
  rw [if_neg (fun hne => hne hch)]
  exact attachToFirstActive_first env cfg msg fs id bd post pre hpre hbd

/-- A first active bridge record, created at time 900. -/
def bdEarly : BridgeData :=
  { whatsappChatId := "a@c.us", whatsappChat := "a@c.us", timestamp := 900,
    responses := [] }

/-- A second active bridge record, created at time 950. -/
def bdLate : BridgeData :=
  { whatsappChatId := "b@c.us", whatsappChat := "b@c.us", timestamp := 950,
    responses := [] }

/-- A plain reply posted in the bridge channel. -/
def msgHi : DiscordMessage :=
  { content := "hi", authorUsername := "dan", authorId := "u9",
    authorIsBot := false, channelId := "chan", attachments := [] }

/-- Counterexample to claim C1 as stated: with two records both inside
their window at receipt time, the reply is not attributed to the second
one even though `now - createdAt <= activeWindow` holds for it, so the
window test is not an "exactly when" criterion for attribution. -/
theorem discordReply_iff_window_cx :
    envAllOk.now - bdLate.timestamp ≤ cfg0.messageTimeout
    ∧ ((handleDiscordMessageP0 envAllOk cfg0 msgHi
          [("A1", bdEarly), ("A2", bdLate)] []).1.find? (fun p => p.1 = "A2"))
        = some ("A2", bdLate) := by decide

/-- A first active record (created at 500) for the fan-out refutation. -/
def bdX : BridgeData :=
  { whatsappChatId := "x@c.us", whatsappChat := "x@c.us", timestamp := 500,
    responses := [] }

/-- A second active record (created at 600) for the fan-out refutation. -/
def bdY : BridgeData :=
  { whatsappChatId := "y@c.us", whatsappChat := "y@c.us", timestamp := 600,
    responses := [] }

/-- An environment observing time 700 with every external call
succeeding. -/
def envAt700 : Env := { envAllOk with now := 700 }

/-- A short-window configuration (timeout 300). -/
def cfg300 : Config :=
  { discordChannelId := "chan", messageTimeout := 300, triggerChar := "." }

/-- A reply used for the fan-out refutation. -/
def msgYo : DiscordMessage :=
  { content := "yo", authorUsername := "eva", authorId := "u3",
    authorIsBot := false, channelId := "chan", attachments := [] }

/-- Counterexample to claim C4 as stated: with two simultaneously
active records, the handler appends the reply to the first record only
and leaves the second active record without it, so the reply is not
delivered to all active records. -/
theorem discordReply_fanout_cx :
    (envAt700.now - bdX.timestamp ≤ cfg300.messageTimeout
      ∧ envAt700.now - bdY.timestamp ≤ cfg300.messageTimeout)
    ∧ (handleDiscordMessageP0 envAt700 cfg300 msgYo [("K1", bdX), ("K2", bdY)] []).1
        = [("K1", { bdX with responses := [mkResponse envAt700 "K1" [] msgYo] }),
           ("K2", bdY)] := by decide

/-- Witness for claim C1's amended theorem at a concrete two-record
store whose first record (created at 100, observed at 700 with window
300) is expired and whose second is active: the expired record is
returned unchanged while the reply goes to the active one. -/
theorem discordReply_window_only_admission_witness :
    List.Forall₂ (fun p q : String × BridgeData =>
        p.1 = q.1 ∧ (¬ envAt700.now - p.2.timestamp ≤ cfg300.messageTimeout → q = p))
      [("W1", { bdX with timestamp := 100 }), ("W2", bdY)]
      ((handleDiscordMessageP0 envAt700 cfg300 msgHi
          [("W1", { bdX with timestamp := 100 }), ("W2", bdY)] []).1) :=
  discordReply_window_only_admission envAt700 cfg300 msgHi
    [("W1", { bdX with timestamp := 100 }), ("W2", bdY)] [] rfl

/-- Witness for claim C4's amended theorem: one expired record followed
by an active one; the active record receives the reply and later
records stay untouched. -/
theorem discordReply_first_match_witness :
    handleDiscordMessageP0 envAt700 cfg300 msgYo
        [("F1", { bdX with timestamp := 100 }), ("F2", bdY), ("F3", bdX)] [] =
      ([("F1", { bdX with timestamp := 100 }),
        ("F2", { bdY with responses := [mkResponse envAt700 "F2" [] msgYo] }),
        ("F3", bdX)],
       (downloadAttachments envAt700 "F2" [] msgYo.attachments).2) :=
  discordReply_first_match envAt700 cfg300 msgYo []
    [("F1", { bdX with timestamp := 100 })] [("F3", bdX)] "F2" bdY rfl
    (by decide) (by decide)

/-- Claim C2 (amended): an inbound WhatsApp event creates a bridge
record and forwards the message if and only if its raw, untrimmed body
starts with the configured trigger character, it does not originate
from the status broadcast, and the body after prefix stripping and
trimming is non-blank; any event failing one of these is silently
ignored, with no record created and nothing forwarded. -/
theorem whatsapp_admission_raw_prefix (cfg : Config) (env : Env) (m : WAMessage)
    (store : Store) (fs : FS)
    (hch : env.channelFetch = ChannelFetch.found)
    (hsend : ∀ d, env.discordSendOk d = true)
    (hmedia : m.hasMedia = false) :
    (codeAdmittedV1 cfg m = false →
      handleWhatsAppMessageV1 cfg env m store fs = ⟨store, fs, [], none, []⟩)
    ∧ (codeAdmittedV1 cfg m = true →
      handleWhatsAppMessageV1 cfg env m store fs =
        ⟨store ++ [(env.bridgeId,
            { whatsappChatId := m.msgFrom, whatsappChat := m.chat.idSerialized,
              timestamp := env.now, responses := [] })], fs,
         [DSend.text (v1DiscordText m (jsTrim (jsDrop1 m.body)) env.bridgeId)],
         some env.bridgeId, []⟩) := by
  constructor
  · intro h
    by_cases h1 : jsStartsWith m.body cfg.triggerChar = true
    · by_cases h2 : m.msgFrom = "status@broadcast"
      · simp [handleWhatsAppMessageV1, h1, h2]
      · have h3 : jsTrim (jsDrop1 m.body) = "" := by
          by_contra h3
          simp [codeAdmittedV1, h1, h2, h3] at h
        simp [handleWhatsAppMessageV1, h1, h2, h3]
    · have h1f : jsStartsWith m.body cfg.triggerChar = false := by simpa using h1
      simp [handleWhatsAppMessageV1, h1f]
  · intro h
    obtain ⟨⟨h1, h2⟩, h3⟩ :
        (jsStartsWith m.body cfg.triggerChar = true
          ∧ m.msgFrom ≠ "status@broadcast") ∧ jsTrim (jsDrop1 m.body) ≠ "" := by
      simpa [codeAdmittedV1, Bool.and_eq_true, bne_iff_ne] using h
    simp [handleWhatsAppMessageV1, h1, h2, h3, hch, hmedia, hsend]

/-- An inbound event whose body starts with whitespace before the
trigger character. -/
def mNoTrim : WAMessage :=
  { body := " .x", msgFrom := "u1@c.us", msgAuthor := none, hasMedia := false,
    media := none,
    chat := { idSerialized := "u1@c.us", isGroup := false, name := "" },
    contact := { contactName := some "Al", pushname := none } }

/-- Counterexample to claim C2 as stated: the event `body = " .x"`
satisfies the claim's three conditions — its body starts with the
trigger character *after trimming*, it is not from the broadcast
pseudo-conversation, and the stripped trimmed body `"x"` is non-empty —
yet the handler ignores it, creating no record and forwarding nothing,
because the code tests `startsWith` on the untrimmed body. -/
theorem whatsapp_admission_trim_cx :
    specAdmittedV1 cfg0 mNoTrim = true
    ∧ handleWhatsAppMessageV1 cfg0 envAllOk mNoTrim [] [] = ⟨[], [], [], none, []⟩ := by
  decide

/-- A plain admitted inbound event `.ping` from a direct chat. -/
def mPing : WAMessage :=
  { body := ".ping", msgFrom := "u1@c.us", msgAuthor := none, hasMedia := false,
    media := none,
    chat := { idSerialized := "u1@c.us", isGroup := false, name := "" },
    contact := { contactName := some "Al", pushname := none } }

/-- Witness for claim C2's amended theorem at the admitted event
`.ping` and at a rejected event. -/
theorem whatsapp_admission_raw_prefix_witness :
    (codeAdmittedV1 cfg0 mPing = false →
      handleWhatsAppMessageV1 cfg0 envAllOk mPing [] [] = ⟨[], [], [], none, []⟩)
    ∧ (codeAdmittedV1 cfg0 mPing = true →
      handleWhatsAppMessageV1 cfg0 envAllOk mPing [] [] =
        ⟨[] ++ [(envAllOk.bridgeId,
            { whatsappChatId := mPing.msgFrom,
              whatsappChat := mPing.chat.idSerialized,
              timestamp := envAllOk.now, responses := [] })], [],
         [DSend.text (v1DiscordText mPing (jsTrim (jsDrop1 mPing.body)) envAllOk.bridgeId)],
         some envAllOk.bridgeId, []⟩) :=
  whatsapp_admission_raw_prefix cfg0 envAllOk mPing [] [] rfl (fun _ => rfl) rfl

/-- Claim C6 (amended): for an admitted event, a *thrown* error while
fetching the bridge channel or sending to it deletes the just-created
record, forwards nothing and schedules no expiry callback, leaving the
store as if the event had never been admitted; the non-throwing
channel-missing guard (`if (!discordChannel) return`) is the exception
and keeps the record (see the counterexample). -/
theorem send_error_rollback (cfg : Config) (env : Env) (m : WAMessage)
    (store : Store) (fs : FS)
    (hadm : codeAdmittedV1 cfg m = true)
    (hfresh : env.bridgeId ∉ store.map Prod.fst)
    (hmedia : m.hasMedia = true → m.media.isSome)
    (herr : env.channelFetch = ChannelFetch.fetchError
      ∨ (env.channelFetch = ChannelFetch.found ∧ ∀ d, env.discordSendOk d = false)) :
    (handleWhatsAppMessageV1 cfg env m store fs).store = store
    ∧ (handleWhatsAppMessageV1 cfg env m store fs).sends = []
    ∧ (handleWhatsAppMessageV1 cfg env m store fs).scheduledFlush = none := by
  obtain ⟨⟨h1, h2⟩, h3⟩ :
      (jsStartsWith m.body cfg.triggerChar = true
        ∧ m.msgFrom ≠ "status@broadcast") ∧ jsTrim (jsDrop1 m.body) ≠ "" := by
    simpa [codeAdmittedV1, Bool.and_eq_true, bne_iff_ne] using hadm
  rcases herr with hce | ⟨hcf, hsf⟩
  · simp [handleWhatsAppMessageV1, h1, h2, h3, hce,
      eraseKey_append_fresh _ _ _ hfresh]
  · by_cases hm : m.hasMedia
    · obtain ⟨md, hmd⟩ := Option.isSome_iff_exists.mp (hmedia hm)
      simp [handleWhatsAppMessageV1, h1, h2, h3, hcf, hm, hmd, hsf,
        eraseKey_append_fresh _ _ _ hfresh]
    · simp [handleWhatsAppMessageV1, h1, h2, h3, hcf, hm, hsf,
        eraseKey_append_fresh _ _ _ hfresh]

/-- An environment in which the bridge channel fetch resolves to a
falsy value. -/
def envNotFound : Env := { envAllOk with channelFetch := ChannelFetch.notFound }

/-- Counterexample to claim C6 as stated: when the channel fetch
resolves to nothing (the bridge channel is missing without a thrown
error), the handler returns early — nothing is relayed, but the
just-created record is *not* removed from the store, so the store is
not as if the event had never been admitted. -/
theorem channel_missing_keeps_record_cx :
    (handleWhatsAppMessageV1 cfg0 envNotFound mPing [] []).sends = []
    ∧ (handleWhatsAppMessageV1 cfg0 envNotFound mPing [] []).store ≠ []
    ∧ (handleWhatsAppMessageV1 cfg0 envNotFound mPing [] []).scheduledFlush = none := by
  decide

/-- An environment in which every Discord send throws. -/
def envSendFail : Env := { envAllOk with discordSendOk := fun _ => false }

/-- Witness for claim C6's amended theorem: a failed Discord send of an
admitted `.ping` event rolls the store back to empty. -/
theorem send_error_rollback_witness :
    (handleWhatsAppMessageV1 cfg0 envSendFail mPing [] []).store = []
    ∧ (handleWhatsAppMessageV1 cfg0 envSendFail mPing [] []).sends = []
    ∧ (handleWhatsAppMessageV1 cfg0 envSendFail mPing [] []).scheduledFlush = none :=
  send_error_rollback cfg0 envSendFail mPing [] [] (by decide) (by decide)
    (by decide) (Or.inr ⟨rfl, fun _ => rfl⟩)

/-- Claim C5 (amended): the immediate-relay variant stores the resolved
conversation's true identifier `chat.id._serialized` as the record's
source conversation reference; the batch variants instead store the raw
sender address `message.from` (see the counterexample). -/
theorem v2_record_uses_chat_id (cfg : Config) (env : Env) (m : WAMessage)
    (store : StoreV2) (fs : FS)
    (hadm : codeAdmittedV2 cfg m = true)
    (hch : env.channelFetch = ChannelFetch.found)
    (hsend : ∀ d, env.discordSendOk d = true)
    (hmedia : m.hasMedia = false) :
    (handleWhatsAppMessageV2 cfg env m store fs).store
      = store ++ [(env.bridgeId,
          { whatsappChatId := m.chat.idSerialized,
            whatsappChat := m.chat.idSerialized,
            timestamp := env.now,
            isGroup := m.chat.isGroup,
            groupName := if m.chat.isGroup then some m.chat.name else none })] := by
  obtain ⟨⟨h1, h2⟩, h3⟩ :
      (jsStartsWith m.body cfg.triggerChar = true
        ∧ m.msgFrom ≠ "status@broadcast") ∧ jsTrim m.body ≠ "" := by
    simpa [codeAdmittedV2, Bool.and_eq_true, bne_iff_ne] using hadm
  simp [handleWhatsAppMessageV2, h1, h2, h3, hch, hmedia, hsend]

/-- An admitted inbound event from a group conversation, whose sender
address differs from the resolved conversation identifier. -/
def mGroup : WAMessage :=
  { body := ".hallo", msgFrom := "5551@c.us", msgAuthor := some "5551@c.us",
    hasMedia := false, media := none,
    chat := { idSerialized := "123-456@g.us", isGroup := true, name := "Gruppe" },
    contact := { contactName := some "Al", pushname := none } }

/-- Counterexample to claim C5 as stated: the batch-mode
`handleWhatsAppMessage` of `server.js` stores the raw sender address
`message.from` as the record's source conversation reference, not the
resolved group conversation's identifier. -/
theorem v1_record_uses_sender_cx :
    mGroup.chat.isGroup = true
    ∧ ((handleWhatsAppMessageV1 cfg0 envAllOk mGroup [] []).store.map
        (fun p => p.2.whatsappChatId)) = ["5551@c.us"]
    ∧ "5551@c.us" ≠ mGroup.chat.idSerialized := by decide

/-- Witness for claim C5's amended theorem at the concrete group
event. -/
theorem v2_record_uses_chat_id_witness :
    (handleWhatsAppMessageV2 cfg0 envAllOk mGroup [] []).store
      = [] ++ [(envAllOk.bridgeId,
          { whatsappChatId := mGroup.chat.idSerialized,
            whatsappChat := mGroup.chat.idSerialized,
            timestamp := envAllOk.now,
            isGroup := mGroup.chat.isGroup,
            groupName := if mGroup.chat.isGroup then some mGroup.chat.name else none })] :=
  v2_record_uses_chat_id cfg0 envAllOk mGroup [] [] (by decide) rfl
    (fun _ => rfl) rfl

/-- Claim C7 (amended): in the `part_000` batch flush and in the
immediate-relay attachment loop, a `.txt`-named attachment never
produces a media (file) send — on success its text content is sent as
an inline chat message; the batch flush of `server.js` has no such
special case and sends `.txt` files as media (see the
counterexample). -/
theorem txt_attachment_inline (env : Env) (chatRef bridgeId : String) (fs : FS)
    (att : SavedAttachment) (datt : DiscordAttachment)
    (htxt : isTxtName att.name = true) (hdtxt : isTxtName datt.name = true) :
    (∀ s ∈ (flushAttachmentP0 env chatRef fs att).1, s.isMediaSend = false)
    ∧ (FS.hasFile fs att.path = true →
        env.waTextOk chatRef (FS.readFile fs att.path) = true →
        (flushAttachmentP0 env chatRef fs att).1
          = [WASend.text chatRef (FS.readFile fs att.path)])
    ∧ (∀ s ∈ (immediateAttachments env chatRef bridgeId fs [datt]).1,
        s.isMediaSend = false) := by
  refine ⟨?_, ?_, ?_⟩
  · intro s hs
    by_cases hf : FS.hasFile fs att.path
    · by_cases hw : env.waTextOk chatRef (FS.readFile fs att.path)
      · simp [flushAttachmentP0, hf, htxt, hw] at hs
        simp [hs, WASend.isMediaSend]
      · simp [flushAttachmentP0, hf, htxt, hw] at hs
        simp [hs, WASend.isMediaSend]
    · simp [flushAttachmentP0, hf] at hs
  · intro hf hw
    simp [flushAttachmentP0, hf, htxt, hw]
  · intro s hs
    by_cases hd : env.fetchOk datt.url
    · by_cases hw : env.waTextOk chatRef ("🤖 " ++ FS.readFile
          (FS.writeFile fs (bridgeId ++ "_" ++ datt.name) (env.fetchBody datt.url))
          (bridgeId ++ "_" ++ datt.name))
      · simp [immediateAttachments, hd, hdtxt, hw] at hs
        simp [hs, WASend.isMediaSend]
      · simp [immediateAttachments, hd, hdtxt, hw] at hs
    · simp [immediateAttachments, hd] at hs

/-- A collected reply carrying a `.txt` attachment. -/
def respTxt : BridgeResponse :=
  { content := "hi", author := "bob",
    attachments :=
      [{ name := "notes.txt", path := "B_notes.txt", contentType := "text/plain" }],
    timestamp := 1 }

/-- A stored record whose single reply carries the `.txt`
attachment. -/
def bdTxt : BridgeData :=
  { whatsappChatId := "w@c.us", whatsappChat := "w@c.us", timestamp := 0,
    responses := [respTxt] }

/-- A scratch directory holding the downloaded `.txt` attachment. -/
def fsTxt : FS := [("B_notes.txt", "Dateiinhalt")]

/-- Counterexample to claim C7 as stated: the batch flush of
`server.js` relays the `.txt`-named attachment as a downloadable media
send with a caption, and never sends its text content inline. -/
theorem txt_attachment_media_v1_cx :
    isTxtName "notes.txt" = true
    ∧ WASend.media "w@c.us" "B_notes.txt" (some (captionV1 "notes.txt" "bob"))
        ∈ (processCollectedResponsesV1 envAllOk fsTxt [("B7", bdTxt)] "B7").1
    ∧ ∀ s ∈ (processCollectedResponsesV1 envAllOk fsTxt [("B7", bdTxt)] "B7").1,
        s ≠ WASend.text "w@c.us" "Dateiinhalt" := by decide

/-- A `.txt` Discord attachment for the inline-relay witness. -/
def dattTxt : DiscordAttachment :=
  { url := "http://cdn/x.txt", name := "x.txt", contentType := "text/plain" }

/-- A saved `.txt` attachment descriptor for the inline-relay
witness. -/
def attTxt : SavedAttachment :=
  { name := "x.txt", path := "B_x.txt", contentType := "text/plain" }

/-- Witness for claim C7's amended theorem at concrete `.txt`
attachments. -/
theorem txt_attachment_inline_witness :
    (∀ s ∈ (flushAttachmentP0 envAllOk "w@c.us" [("B_x.txt", "T")] attTxt).1,
        s.isMediaSend = false)
    ∧ (FS.hasFile [("B_x.txt", "T")] attTxt.path = true →
        envAllOk.waTextOk "w@c.us" (FS.readFile [("B_x.txt", "T")] attTxt.path) = true →
        (flushAttachmentP0 envAllOk "w@c.us" [("B_x.txt", "T")] attTxt).1
          = [WASend.text "w@c.us" (FS.readFile [("B_x.txt", "T")] attTxt.path)])
    ∧ (∀ s ∈ (immediateAttachments envAllOk "w@c.us" "Bi" [("B_x.txt", "T")] [dattTxt]).1,
        s.isMediaSend = false) :=
  txt_attachment_inline envAllOk "w@c.us" "Bi" [("B_x.txt", "T")] attTxt dattTxt
    (by decide) (by decide)

/-- Claim C8 (amended): a *send* failure during the batch flush is
caught at that attachment, a failure notice naming it is sent to the
destination conversation, its scratch file is left, and the remaining
attachments are still processed; a *download* failure during reply
collection is caught at that attachment and only logged — nothing is
saved for it, no notice is ever sent, and the remaining downloads still
proceed. -/
theorem attachment_failure_containment (env : Env) (chatRef bridgeId : String)
    (fs : FS) (a : SavedAttachment) (rest : List SavedAttachment)
    (d : DiscordAttachment) (drest : List DiscordAttachment)
    (hex : FS.hasFile fs a.path = true)
    (hft : env.waTextOk chatRef (FS.readFile fs a.path) = false)
    (hfm : env.waMediaOk chatRef a.path = false)
    (hdl : env.fetchOk d.url = false) :
    flushAttachmentsP0 env chatRef fs (a :: rest)
       = (WASend.text chatRef (failNotice a.name)
            :: (flushAttachmentsP0 env chatRef fs rest).1,
          (flushAttachmentsP0 env chatRef fs rest).2)
    ∧ downloadAttachments env bridgeId fs (d :: drest)
       = downloadAttachments env bridgeId fs drest := by
  constructor
  · by_cases ht : isTxtName a.name
    · simp [flushAttachmentsP0, flushAttachmentP0, hex, ht, hft]
    · simp [flushAttachmentsP0, flushAttachmentP0, hex, ht, hfm]
  · simp [downloadAttachments, hdl]

/-- An environment at time 10 whose attachment downloads all fail. -/
def envDownFail : Env := { envAllOk with now := 10, fetchOk := fun _ => false }

/-- A short-window configuration for the download-failure scenario. -/
def cfg100 : Config :=
  { discordChannelId := "chan", messageTimeout := 100, triggerChar := "." }

/-- An active record awaiting replies at the download-failure
scenario. -/
def bdFresh : BridgeData :=
  { whatsappChatId := "w@c.us", whatsappChat := "w@c.us", timestamp := 0,
    responses := [] }

/-- A reply carrying one attachment whose download will fail. -/
def msgBin : DiscordMessage :=
  { content := "yo", authorUsername := "al", authorId := "u2",
    authorIsBot := false, channelId := "chan",
    attachments :=
      [{ url := "http://x/f.bin", name := "f.bin",
         contentType := "application/octet-stream" }] }

/-- Counterexample to claim C8 as stated: an attachment download
failure during reply collection produces no failure notice anywhere —
after collecting the reply (with its failed attachment silently
dropped) and flushing, the destination conversation receives only the
reply text and never a notice naming `f.bin`. -/
theorem download_failure_no_notice_cx :
    (processCollectedResponsesP0 envDownFail []
        ((handleDiscordMessageP0 envDownFail cfg100 msgBin [("B8", bdFresh)] []).1)
        "B8").1
      = [WASend.text "w@c.us" "yo"]
    ∧ ∀ s ∈ (processCollectedResponsesP0 envDownFail []
        ((handleDiscordMessageP0 envDownFail cfg100 msgBin [("B8", bdFresh)] []).1)
        "B8").1, s ≠ WASend.text "w@c.us" (failNotice "f.bin") := by decide

/-- An environment whose WhatsApp sends and attachment downloads all
fail. -/
def envItemFail : Env :=
  { envAllOk with
    waTextOk := fun _ _ => false
    waMediaOk := fun _ _ => false
    fetchOk := fun _ => false }

/-- A non-`.txt` saved attachment for the failure-containment
witness. -/
def attBin : SavedAttachment :=
  { name := "a.bin", path := "p.bin", contentType := "application/octet-stream" }

/-- A second non-`.txt` saved attachment, processed after the failing
one. -/
def attBin2 : SavedAttachment :=
  { name := "b.bin", path := "q.bin", contentType := "application/octet-stream" }

/-- Witness for claim C8's amended theorem at a concrete failing
attachment followed by another attachment. -/
theorem attachment_failure_containment_witness :
    flushAttachmentsP0 envItemFail "w@c.us" [("p.bin", "x"), ("q.bin", "y")]
        (attBin :: [attBin2])
       = (WASend.text "w@c.us" (failNotice attBin.name)
            :: (flushAttachmentsP0 envItemFail "w@c.us" [("p.bin", "x"), ("q.bin", "y")]
                  [attBin2]).1,
          (flushAttachmentsP0 envItemFail "w@c.us" [("p.bin", "x"), ("q.bin", "y")]
              [attBin2]).2)
    ∧ downloadAttachments envItemFail "Bw" [("p.bin", "x"), ("q.bin", "y")]
        ({ url := "http://x/g.bin", name := "g.bin", contentType := "o" } :: [])
       = downloadAttachments envItemFail "Bw" [("p.bin", "x"), ("q.bin", "y")] [] :=
  attachment_failure_containment envItemFail "w@c.us" "Bw"
    [("p.bin", "x"), ("q.bin", "y")] attBin [attBin2]
    { url := "http://x/g.bin", name := "g.bin", contentType := "o" } []
    (by decide) rfl rfl rfl

/-- Claim C9 (amended): a reply-side scratch file is removed from the
scratch directory exactly when its send succeeds — after a failed
(caught and logged) send the file is still present; an inbound-side
scratch file has its deletion scheduled on the bounded linger only when
the Discord send succeeds, and a failed send leaves the file with no
deletion scheduled. -/
theorem scratch_file_lifecycle (env : Env) (cfg : Config) (chatRef : String)
    (fs : FS) (att : SavedAttachment)
    (hex : FS.hasFile fs att.path = true) :
    (isTxtName att.name = false → env.waMediaOk chatRef att.path = true →
        FS.hasFile (flushAttachmentP0 env chatRef fs att).2 att.path = false)
    ∧ (isTxtName att.name = false → env.waMediaOk chatRef att.path = false →
        FS.hasFile (flushAttachmentP0 env chatRef fs att).2 att.path = true)
    ∧ (isTxtName att.name = true →
        env.waTextOk chatRef (FS.readFile fs att.path) = true →
        FS.hasFile (flushAttachmentP0 env chatRef fs att).2 att.path = false)
    ∧ (isTxtName att.name = true →
        env.waTextOk chatRef (FS.readFile fs att.path) = false →
        FS.hasFile (flushAttachmentP0 env chatRef fs att).2 att.path = true)
    ∧ (∀ m store md, codeAdmittedV1 cfg m = true → m.hasMedia = true →
        m.media = some md → env.channelFetch = ChannelFetch.found →
        env.discordSendOk (DSend.withFile
            (v1DiscordText m (jsTrim (jsDrop1 m.body)) env.bridgeId)
            (env.bridgeId ++ "_" ++ md.filename.getD "media")) = true →
        (handleWhatsAppMessageV1 cfg env m store fs).pendingDeletes
          = [env.bridgeId ++ "_" ++ md.filename.getD "media"])
    ∧ (∀ m store md, codeAdmittedV1 cfg m = true → m.hasMedia = true →
        m.media = some md → env.channelFetch = ChannelFetch.found →
        env.discordSendOk (DSend.withFile
            (v1DiscordText m (jsTrim (jsDrop1 m.body)) env.bridgeId)
            (env.bridgeId ++ "_" ++ md.filename.getD "media")) = false →
        FS.hasFile (handleWhatsAppMessageV1 cfg env m store fs).fs
            (env.bridgeId ++ "_" ++ md.filename.getD "media") = true
        ∧ (handleWhatsAppMessageV1 cfg env m store fs).pendingDeletes = []) := by
  refine ⟨?_, ?_, ?_, ?_, ?_, ?_⟩
  · intro ht hw
    simp [flushAttachmentP0, hex, ht, hw, hasFile_removeFile]
  · intro ht hw
    simp [flushAttachmentP0, hex, ht, hw]
  · intro ht hw
    simp [flushAttachmentP0, hex, ht, hw, hasFile_removeFile]
  · intro ht hw
    simp [flushAttachmentP0, hex, ht, hw]
  · intro m store md hadm hm hmd hch hok
    obtain ⟨⟨h1, h2⟩, h3⟩ :
        (jsStartsWith m.body cfg.triggerChar = true
          ∧ m.msgFrom ≠ "status@broadcast") ∧ jsTrim (jsDrop1 m.body) ≠ "" := by
      simpa [codeAdmittedV1, Bool.and_eq_true, bne_iff_ne] using hadm
    simp [handleWhatsAppMessageV1, h1, h2, h3, hch, hm, hmd, hok]
  · intro m store md hadm hm hmd hch hbad
    obtain ⟨⟨h1, h2⟩, h3⟩ :
        (jsStartsWith m.body cfg.triggerChar = true
          ∧ m.msgFrom ≠ "status@broadcast") ∧ jsTrim (jsDrop1 m.body) ≠ "" := by
      simpa [codeAdmittedV1, Bool.and_eq_true, bne_iff_ne] using hadm
    simp [handleWhatsAppMessageV1, h1, h2, h3, hch, hm, hmd, hbad,
      hasFile_writeFile]

/-- An environment whose WhatsApp media sends fail but whose text sends
succeed. -/
def envMediaFail : Env := { envAllOk with waMediaOk := fun _ _ => false }

/-- Counterexample to claim C9 as stated: after the send of the
scratch-file attachment `p.bin` completes by failing with a logged
error (and a failure notice), the scratch file is still present in the
scratch directory — it outlives its relay operation. -/
theorem scratch_file_survives_failed_send_cx :
    FS.hasFile (flushAttachmentP0 envMediaFail "w@c.us" [("p.bin", "x")] attBin).2
        "p.bin" = true
    ∧ (flushAttachmentP0 envMediaFail "w@c.us" [("p.bin", "x")] attBin).1
        = [WASend.text "w@c.us" (failNotice "a.bin")] := by decide

/-- Witness for claim C9's amended theorem at a concrete scratch file
and attachment. -/
theorem scratch_file_lifecycle_witness :
    (isTxtName attBin.name = false → envAllOk.waMediaOk "w@c.us" attBin.path = true →
        FS.hasFile (flushAttachmentP0 envAllOk "w@c.us" [("p.bin", "x")] attBin).2
          attBin.path = false)
    ∧ (isTxtName attBin.name = false → envAllOk.waMediaOk "w@c.us" attBin.path = false →
        FS.hasFile (flushAttachmentP0 envAllOk "w@c.us" [("p.bin", "x")] attBin).2
          attBin.path = true)
    ∧ (isTxtName attBin.name = true →
        envAllOk.waTextOk "w@c.us" (FS.readFile [("p.bin", "x")] attBin.path) = true →
        FS.hasFile (flushAttachmentP0 envAllOk "w@c.us" [("p.bin", "x")] attBin).2
          attBin.path = false)
    ∧ (isTxtName attBin.name = true →
        envAllOk.waTextOk "w@c.us" (FS.readFile [("p.bin", "x")] attBin.path) = false →
        FS.hasFile (flushAttachmentP0 envAllOk "w@c.us" [("p.bin", "x")] attBin).2
          attBin.path = true)
    ∧ (∀ m store md, codeAdmittedV1 cfg0 m = true → m.hasMedia = true →
        m.media = some md → envAllOk.channelFetch = ChannelFetch.found →
        envAllOk.discordSendOk (DSend.withFile
            (v1DiscordText m (jsTrim (jsDrop1 m.body)) envAllOk.bridgeId)
            (envAllOk.bridgeId ++ "_" ++ md.filename.getD "media")) = true →
        (handleWhatsAppMessageV1 cfg0 envAllOk m store [("p.bin", "x")]).pendingDeletes
          = [envAllOk.bridgeId ++ "_" ++ md.filename.getD "media"])
    ∧ (∀ m store md, codeAdmittedV1 cfg0 m = true → m.hasMedia = true →
        m.media = some md → envAllOk.channelFetch = ChannelFetch.found →
        envAllOk.discordSendOk (DSend.withFile
            (v1DiscordText m (jsTrim (jsDrop1 m.body)) envAllOk.bridgeId)
            (envAllOk.bridgeId ++ "_" ++ md.filename.getD "media")) = false →
        FS.hasFile (handleWhatsAppMessageV1 cfg0 envAllOk m store [("p.bin", "x")]).fs
            (envAllOk.bridgeId ++ "_" ++ md.filename.getD "media") = true
        ∧ (handleWhatsAppMessageV1 cfg0 envAllOk m store [("p.bin", "x")]).pendingDeletes
            = []) :=
  scratch_file_lifecycle envAllOk cfg0 "w@c.us" [("p.bin", "x")] attBin (by decide)

end WDBridge
